import Mathlib

/-!
# Verification of the apantli request-resolution, dispatch and cost-accounting core

Shallow embedding of the Python sources under `apantli/` (config.py,
model_resolution.py, types.py, outbound.py, pricing.py, incoming.py) and
proofs about the spec's claims.

Conventions of the embedding:
* JSON / Python values that flow through the parameter-merging logic are
  modelled by `Value`.  The merge logic only ever distinguishes `null` from
  non-`null` and inspects strings, so atomic constructors (plus a flat
  string-map for HTTP headers) suffice; structured payloads behave exactly
  like any other non-null value there.
* Python floats are modelled by exact rationals (`ℚ`): the pricing layer
  performs plain `a*b/1e6 + c*d/1e6` arithmetic and the spec speaks of exact
  results.
* `os.environ` is an explicit association list passed to the functions that
  read it.
* Attribute bags built by `setattr` (pydantic models with `extra = "allow"`)
  are association lists with unique keys; `setattr` replaces the binding of a
  key, `getattr` looks it up with default `null`, exactly like
  `getattr(obj, key, None)`.
* Async control flow (the streaming generator, the index rebuild) is embedded
  as explicit state passing: the outcome of the awaited effect (fetched data,
  next chunk, disconnect poll) is an argument, and the function computes the
  sequence of observable events / the resulting state.
-/

namespace Apantli

/-- A Python/JSON value as seen by the parameter-merging logic. -/
inductive Value where
  | vnull
  | vbool (b : Bool)
  | vnum (q : ℚ)
  | vstr (s : String)
  | vstrmap (m : List (String × String))
deriving DecidableEq, Repr

/-- Python test `v is None`. -/
def Value.isNull : Value → Bool
  | .vnull => true
  | _ => false

/-- Lookup in an association list (Python `dict.get(k)` / `find`). -/
def alistGet {α : Type} (ps : List (String × α)) (k : String) : Option α :=
  (ps.find? (fun kv => kv.1 == k)).map (fun kv => kv.2)

/-- Python `os.environ.get(var, ...)` with default empty string. -/
def envGet (env : List (String × String)) (var : String) : String :=
  (alistGet env var).getD ""

/-- Python `setattr obj k v` on a dict-backed attribute bag: replace the binding of
`k` by `v` (a dict holds one binding per key). -/
def setattr (ps : List (String × Value)) (k : String) (v : Value) :
    List (String × Value) :=
  ps.filter (fun kv => kv.1 != k) ++ [(k, v)]

/-- Python getattr with default None: the bound value, or `null` when absent. -/
def getattr (ps : List (String × Value)) (k : String) : Value :=
  ((alistGet ps k).getD Value.vnull)

/-! ## pricing.py — `CatwalkPricingService` -/

/-- Pricing data for a model (`ModelPricing` dataclass). -/
structure ModelPricing where
  cost_per_1m_in : ℚ
  cost_per_1m_out : ℚ
deriving DecidableEq, Repr

/-- The shared pricing index: provider catwalk name → model id → pricing
(`self._pricing_index`). -/
abbrev PricingIndex : Type := List (String × List (String × ModelPricing))

/-- Python string truthiness on an `Optional[str]`: `not x` holds for `None`
and for the empty string. -/
def falsyStr : Option String → Bool
  | none => true
  | some s => s == ""

/-- Embedding of `CatwalkPricingService.calculate_cost` (pricing.py lines 108-192).
The override branch never touches the index; the lookup branches return 0.0
on any miss.  Token counts are integers, costs exact rationals. -/
def calculate_cost (index : PricingIndex)
    (catwalk_name costing_model : Option String)
    (prompt_tokens completion_tokens : ℤ)
    (pricing_override : Option (List (String × ℚ))) : ℚ :=
  match pricing_override with
  | some ov =>
      let cost_per_1m_in := (alistGet ov "cost_per_1m_in").getD 0
      let cost_per_1m_out := (alistGet ov "cost_per_1m_out").getD 0
      (prompt_tokens * cost_per_1m_in / 1000000) +
        (completion_tokens * cost_per_1m_out / 1000000)
  | none =>
      if falsyStr catwalk_name then 0
      else if falsyStr costing_model then 0
      else
        match alistGet index (catwalk_name.getD "") with
        | none => 0
        | some provider_models =>
            match alistGet provider_models (costing_model.getD "") with
            | none => 0
            | some pricing =>
                (prompt_tokens * pricing.cost_per_1m_in / 1000000) +
                  (completion_tokens * pricing.cost_per_1m_out / 1000000)

/-! ### Catwalk fetch-and-build (pricing.py lines 49-106)

The awaited HTTP fetch is an explicit argument: either it failed
(`httpx.HTTPError`, caught at line 94) or it produced a decoded JSON
payload.  `float(x)` on a JSON value can raise `ValueError`/`TypeError`
(caught at line 101), so building the new index is fallible. -/

/-- A JSON value in a catwalk cost field, as far as `float()` cares. -/
inductive JsonNum where
  | num (q : ℚ)
  | invalid
deriving DecidableEq, Repr

/-- Python `float(x)`: succeeds on numbers, raises otherwise. -/
def jsonToFloat : JsonNum → Except Unit ℚ
  | .num q => .ok q
  | .invalid => .error ()

/-- One entry of a provider's `"models"` list in the catwalk payload. -/
structure CatwalkModel where
  id : Option String
  cost_per_1m_in : Option JsonNum
  cost_per_1m_out : Option JsonNum
deriving DecidableEq, Repr

/-- One entry of the catwalk `providers` payload. -/
structure CatwalkProvider where
  id : Option String
  models : List CatwalkModel
deriving DecidableEq, Repr

/-- The inner model loop of `_fetch_and_build_index`: build `models_dict`
for one provider, propagating a `float()` failure. -/
def buildModelsDict (ms : List CatwalkModel) :
    Except Unit (List (String × ModelPricing)) :=
  ms.foldlM
    (fun acc m =>
      match m.id, m.cost_per_1m_in, m.cost_per_1m_out with
      | some mid, some ci, some co =>
          if mid == "" then pure acc
          else do
            let ci ← jsonToFloat ci
            let co ← jsonToFloat co
            pure (acc ++ [(mid, ⟨ci, co⟩)])
      | _, _, _ => pure acc)
    []

/-- The provider loop of `_fetch_and_build_index`: build the brand-new index
in a local variable (`new_index`). -/
def buildIndex (providers : List CatwalkProvider) : Except Unit PricingIndex :=
  providers.foldlM
    (fun acc p =>
      match p.id with
      | none => pure acc
      | some pid =>
          if pid == "" then pure acc
          else do
            let models_dict ← buildModelsDict p.models
            if models_dict.isEmpty then pure acc
            else pure (acc ++ [(pid, models_dict)]))
    []

/-- Outcome of the awaited catwalk fetch. -/
inductive FetchResult where
  | httpError
  | ok (providers : List CatwalkProvider)

/-- Embedding of `_fetch_and_build_index` as a state transition on the shared index:
on HTTP failure or a parse failure the except-branches only log and the
index is untouched; on success `self._pricing_index = new_index` swaps in
the fully-built local index. -/
def fetch_and_build_index (state : PricingIndex) (fetched : FetchResult) :
    PricingIndex :=
  match fetched with
  | .httpError => state
  | .ok providers =>
      match buildIndex providers with
      | .error _ => state
      | .ok new_index => new_index

/-! ## config.py — `Config`, `ProviderConfig`, `ModelConfig` -/

/-- Replace the binding of `k` in an association list (Python dict
assignment `d[k] = v`: a dict holds one binding per key). -/
def alistSet {α : Type} (ps : List (String × α)) (k : String) (v : α) :
    List (String × α) :=
  ps.filter (fun kv => kv.1 != k) ++ [(k, v)]

/-- Embedding of `ProviderConfig` (config.py lines 28-37).  `api_key` and `base_url` are
typed `str` in the pydantic class, so a validated instance carries actual
strings; the remaining fields are `Optional`. -/
structure ProviderConfig where
  provider_name : String
  api_key : String
  timeout : Option ℤ
  num_retries : Option ℤ
  base_url : String
  catwalk_name : Option String
  custom_llm_provider : Option String
  headers : Option (List (String × String))
deriving DecidableEq, Repr

/-- Embedding of `ModelConfig` (config.py lines 40-51).  `context_window` is the field
read by model_resolution.py line 95 and incoming.py (the config.py revision
of the class omits it; the rest of the code treats it as an optional
attribute of the model entry). -/
structure ModelConfig where
  model_name : String
  litellm_model : String
  provider_name : String
  costing_model : Option String
  temperature : Option ℚ
  max_tokens : Option ℤ
  context_window : Option ℤ
  litellm_params : List (String × Value)
deriving DecidableEq, Repr

/-- A raw provider entry of the decoded config JSON, with the keys
`parse_providers` reads.  `some` models a present non-null value; an absent
key is `none` (an explicitly-null defaulted key is not distinguished — no
claim depends on it). -/
structure ProviderDict where
  provider_name : Option String
  api_key : Option String
  timeout : Option ℤ
  num_retries : Option ℤ
  base_url : Option String
  catwalk_name : Option String
  custom_llm_provider : Option String
  headers : Option (List (String × String))
deriving DecidableEq, Repr

/-- A raw model entry of the decoded config JSON, with the keys
`parse_models` reads.  `model_value` is the source of the required
`litellm_model` field (alias `model`); construction fails validation when a
required field is unavailable. -/
structure ModelDict where
  model_name : Option String
  model_value : Option String
  costing_model : Option String
  provider_name : Option String
  context_window : Option ℤ
  litellm_params : List (String × Value)
deriving DecidableEq, Repr

/-- The decoded top-level config document. -/
structure ConfigData where
  provider_list : List ProviderDict
  model_list : List ModelDict
deriving DecidableEq, Repr

/-- Constant `DEFAULT_TIMEOUT` (config.py line 14). -/
def DEFAULT_TIMEOUT : ℤ := 120

/-- Constant `DEFAULT_RETRIES` (config.py line 15). -/
def DEFAULT_RETRIES : ℤ := 3

/-- Embedding of `Config.parse_providers` (config.py lines 84-124): skip an entry with a
falsy `provider_name`; an entry whose required `str` fields (`api_key`,
`base_url`) are `None` fails pydantic validation and is skipped; `timeout`
and `num_retries` default when the key is absent; the truthy-guarded
optional fields are set only when non-empty. -/
def parse_providers (config_data : ConfigData) : List (String × ProviderConfig) :=
  config_data.provider_list.foldl
    (fun providers provider_dict =>
      match provider_dict.provider_name with
      | none => providers
      | some provider_name =>
          if provider_name == "" then providers
          else
            match provider_dict.api_key, provider_dict.base_url with
            | some api_key, some base_url =>
                let provider_config : ProviderConfig :=
                  { provider_name := provider_name
                    api_key := api_key
                    timeout := some (provider_dict.timeout.getD DEFAULT_TIMEOUT)
                    num_retries := some (provider_dict.num_retries.getD DEFAULT_RETRIES)
                    base_url := base_url
                    catwalk_name :=
                      if falsyStr provider_dict.catwalk_name then none
                      else provider_dict.catwalk_name
                    custom_llm_provider :=
                      if falsyStr provider_dict.custom_llm_provider then none
                      else provider_dict.custom_llm_provider
                    headers :=
                      match provider_dict.headers with
                      | some hs => if hs.isEmpty then none else some hs
                      | none => none }
                alistSet providers provider_name provider_config
            | _, _ => providers)
    []

/-- Embedding of `Config.parse_models` (config.py lines 126-169): skip an entry with a
falsy `model_name`; an entry missing a required field (`provider_name`, or
the source of `litellm_model`) fails validation and is skipped; the
remaining entries are collected into a fresh map. -/
def parse_models (config_data : ConfigData) : List (String × ModelConfig) :=
  config_data.model_list.foldl
    (fun models model_dict =>
      match model_dict.model_name with
      | none => models
      | some model_name =>
          if model_name == "" then models
          else
            match model_dict.provider_name, model_dict.model_value with
            | some provider_name, some litellm_model =>
                alistSet models model_name
                  { model_name := model_name
                    litellm_model := litellm_model
                    provider_name := provider_name
                    costing_model := model_dict.costing_model
                    temperature := none
                    max_tokens := none
                    context_window := model_dict.context_window
                    litellm_params := model_dict.litellm_params }
            | _, _ => models)
    []

/-- The in-memory state of a `Config` object: `self.providers` and
`self.models`. -/
structure ConfigState where
  providers : List (String × ProviderConfig)
  models : List (String × ModelConfig)
deriving DecidableEq, Repr

/-- Outcome of the body of reload's try block.  The try block spans
template rendering, JSON decoding and both parse calls (config.py lines
173-179), so an exception can also arise inside the parse calls, at
different points relative to the map assignments:
* `fileNotFound`, `jsonDecodeError`: the two dedicated except branches.
* `renderError`: `_render_template` raised something other than
  `FileNotFoundError`, caught by the catch-all before any parsing.
* `providerListError`: `parse_providers` raised outside its per-entry
  handler (a non-dict document at config.py line 87, or a non-dict entry
  at line 89, which call `.get` before the per-entry try), so the function
  aborted before the `self.providers` assignment at line 121.
* `modelListError pl`: `parse_providers` completed — the document carried
  the raw provider entries `pl` and `self.providers` was assigned at line
  121 — and then `parse_models` raised outside its per-entry handler (a
  non-dict entry at line 134) before the `self.models` assignment at line
  166; the catch-all fires with the new provider map already in place. -/
inductive LoadResult where
  | fileNotFound
  | jsonDecodeError
  | renderError
  | providerListError
  | modelListError (provider_list : List ProviderDict)
  | ok (config_data : ConfigData)
deriving DecidableEq, Repr

/-- Embedding of `Config.reload` (config.py lines 171-190) as a state
transition: on a successful parse both maps are assigned from the
document; each except branch logs and assigns `self.models = {}`, leaving
`self.providers` as the try block left it — untouched when the exception
arose before `parse_providers` finished, but already replaced by the new
provider parse when the exception arose inside `parse_models`. -/
def Config.reload (state : ConfigState) (load : LoadResult) : ConfigState :=
  match load with
  | .ok config_data =>
      { providers := parse_providers config_data
        models := parse_models config_data }
  | .fileNotFound => { state with models := [] }
  | .jsonDecodeError => { state with models := [] }
  | .renderError => { state with models := [] }
  | .providerListError => { state with models := [] }
  | .modelListError provider_list =>
      { providers := parse_providers ⟨provider_list, []⟩
        models := [] }

/-! ## types.py — `ChatFunctionCallArgs` -/

/-- Embedding of `ChatFunctionCallArgs` (types.py lines 16-78): `model` and `messages`
are the non-optional fields; every optional field and every extra kwarg
(the class allows extras and is written to by `setattr`) lives in the
attribute bag `params`, where an absent attribute reads as `None`. -/
structure ChatFunctionCallArgs where
  model : String
  messages : List Value
  params : List (String × Value)
deriving DecidableEq, Repr

/-- Embedding of `to_dict` (types.py lines 72-78): the fields of the object, excluding
`None` values.  `model` and `messages` are non-optional and always kept;
the returned list is the optional-parameter portion of the dict. -/
def ChatFunctionCallArgs.to_dict (c : ChatFunctionCallArgs) :
    List (String × Value) :=
  c.params.filter (fun kv => !kv.2.isNull)

/-! ## model_resolution.py -/

/-- The client request body as `create_completion_request` reads it: the
`messages` list, and the remaining keys (`model` was consumed by the
caller) as a parameter map. -/
structure RequestData where
  messages : List Value
  params : List (String × Value)
deriving DecidableEq, Repr

/-- The attribute value assigned by `call_request.max_tokens =
model_config.context_window` (model_resolution.py line 95): `None` becomes
a null attribute. -/
def optIntToValue : Option ℤ → Value
  | none => .vnull
  | some n => .vnum n

/-- Python `s.startswith(pre)` (over the character lists, so that concrete
instances evaluate). -/
def strStartsWith (s pre : String) : Bool :=
  pre.data.isPrefixOf s.data

/-- The credential indirection of model_resolution.py lines 78-81: a value
starting with `os.environ/` names an environment variable (looked up with
default `''`); anything else is used literally.  `split('/', 1)[1]` is the
text after the first `/`, which — given the marker match — is everything
after `os.environ/`. -/
def resolve_api_key (api_key : String) (env : List (String × String)) : String :=
  if strStartsWith api_key "os.environ/" then
    envGet env ⟨api_key.data.drop "os.environ/".data.length⟩
  else api_key

/-- Assign one attribute of the descriptor (the record update behind each
`setattr(call_request, key, value)`). -/
def ChatFunctionCallArgs.set (cr : ChatFunctionCallArgs) (k : String)
    (v : Value) : ChatFunctionCallArgs :=
  { cr with params := setattr cr.params k v }

/-- The client-parameter copy step (model_resolution.py lines 73-75):
`if key not in ('model', 'messages') and value is not None: setattr(...)`. -/
def copyClientParam (cr : ChatFunctionCallArgs) (kv : String × Value) :
    ChatFunctionCallArgs :=
  if kv.1 != "model" && kv.1 != "messages" && !kv.2.isNull then
    cr.set kv.1 kv.2
  else cr

/-- The model-config default step (model_resolution.py lines 87-93):
`if key not in ('model', 'api_key')` and the current attribute is `None`,
use the config value. -/
def applyModelDefault (cr : ChatFunctionCallArgs) (kv : String × Value) :
    ChatFunctionCallArgs :=
  if kv.1 != "model" && kv.1 != "api_key" then
    if (getattr cr.params kv.1).isNull then cr.set kv.1 kv.2 else cr
  else cr

/-- The credential step (model_resolution.py lines 77-83): resolve the
configured credential and assign it only when truthy (non-empty). -/
def applyApiKey (cr : ChatFunctionCallArgs) (provider_config : ProviderConfig)
    (env : List (String × String)) : ChatFunctionCallArgs :=
  let api_key := resolve_api_key provider_config.api_key env
  if api_key != "" then cr.set "api_key" (.vstr api_key) else cr

/-- The provider-default tail of `create_completion_request`
(model_resolution.py lines 95-108): `max_tokens` from the model's context
window (unconditionally, even when `None`), `timeout` from the provider
when truthy, `base_url` unconditionally, `extra_headers` and
`custom_llm_provider` when truthy. -/
def applyProviderFields (cr : ChatFunctionCallArgs)
    (model_config : ModelConfig) (provider_config : ProviderConfig) :
    ChatFunctionCallArgs :=
  let cr := cr.set "max_tokens" (optIntToValue model_config.context_window)
  let cr :=
    match provider_config.timeout with
    | some t => if t != 0 then cr.set "timeout" (.vnum t) else cr
    | none => cr
  let cr := cr.set "base_url" (.vstr provider_config.base_url)
  let cr :=
    match provider_config.headers with
    | some hs => if !hs.isEmpty then cr.set "extra_headers" (.vstrmap hs) else cr
    | none => cr
  match provider_config.custom_llm_provider with
  | some s => if s != "" then cr.set "custom_llm_provider" (.vstr s) else cr
  | none => cr

/-- Embedding of `create_completion_request` (model_resolution.py lines 67-110), after
the alias and provider lookups succeeded: build the descriptor from the
model's upstream identifier and the messages, copy non-null client
parameters, set the resolved credential when truthy, fill model-config
defaults for attributes still null, then assign `max_tokens`, `timeout`,
`base_url`, `extra_headers` and `custom_llm_provider` as the source does. -/
def create_completion_request (model_config : ModelConfig)
    (provider_config : ProviderConfig) (request_data : RequestData)
    (env : List (String × String)) : ChatFunctionCallArgs :=
  let call_request : ChatFunctionCallArgs :=
    { model := model_config.litellm_model
      messages := request_data.messages
      params := [] }
  let call_request := request_data.params.foldl copyClientParam call_request
  let call_request := applyApiKey call_request provider_config env
  let call_request :=
    model_config.litellm_params.foldl applyModelDefault call_request
  applyProviderFields call_request model_config provider_config

/-- Constant `ANTHROPIC_STRICT_MODELS` (model_resolution.py lines 117-120). -/
def ANTHROPIC_STRICT_MODELS : List String :=
  ["claude-sonnet-4-5-20250929", "claude-opus-4"]

/-- Test that `needle` occurs as a contiguous run in a character list. -/
def charsContain (needle : List Char) : List Char → Bool
  | [] => needle.isEmpty
  | c :: rest => needle.isPrefixOf (c :: rest) || charsContain needle rest

/-- Python `needle in hay` substring test. -/
def strContains (hay needle : String) : Bool :=
  charsContain needle.data hay.data

/-- Embedding of `any(strict_model in litellm_model for ...)` (model_resolution.py
lines 137-140). -/
def is_strict_model (litellm_model : String) : Bool :=
  ANTHROPIC_STRICT_MODELS.any (fun strict_model =>
    strContains litellm_model strict_model)

/-- Embedding of `filter_parameters_for_model` (model_resolution.py lines 113-147): for
a strict model, assign `call_request.top_p = None` unconditionally. -/
def filter_parameters_for_model (call_request : ChatFunctionCallArgs) :
    ChatFunctionCallArgs :=
  if is_strict_model call_request.model then
    { call_request with params := setattr call_request.params "top_p" .vnull }
  else call_request

/-! ## outbound.py — `execute_streaming_request.generate`

The async generator is embedded as a function from the upstream iterator's
outcomes and the disconnect-poll answers to the sequence of observable
events.  Each `await request.is_disconnected()` is one poll; `disc`
answers poll number `p`.  Pulling the next upstream item either yields a
chunk or raises (the three caught exception groups of lines 88-111). -/

/-- Token usage of a chunk / of the synthetic full response. -/
structure Usage where
  prompt_tokens : ℤ
  completion_tokens : ℤ
  total_tokens : ℤ
deriving DecidableEq, Repr

/-- The first element of a chunk's `choices`: the delta content (when the
`content` key is present and non-null) and the `finish_reason` key (outer
`some` = key present; inner value may be null). -/
structure Choice where
  delta_content : Option String
  finish_reason : Option (Option String)
deriving DecidableEq, Repr

/-- One streamed chunk as the generator reads it. -/
structure Chunk where
  choices : List Choice
  id : Option String
  usage : Option Usage
deriving DecidableEq, Repr

/-- The synthetic `full_response` accumulated for accounting
(outbound.py lines 49-54). -/
structure FullResponse where
  id : Option String
  model : String
  content : String
  finish_reason : Option String
  usage : Usage
deriving DecidableEq, Repr

/-- The initial `full_response` (outbound.py lines 49-54). -/
def initFull (model : String) : FullResponse :=
  { id := none, model := model, content := "", finish_reason := none
    usage := ⟨0, 0, 0⟩ }

/-- The per-chunk accumulation (outbound.py lines 70-84): append delta
content, record a present `finish_reason` key, keep a truthy `id`, replace
`usage` when the key is present. -/
def accumulate (full : FullResponse) (c : Chunk) : FullResponse :=
  let full :=
    match c.choices with
    | [] => full
    | choice :: _ =>
        let full :=
          match choice.delta_content with
          | some s => { full with content := full.content ++ s }
          | none => full
        match choice.finish_reason with
        | some fr => { full with finish_reason := fr }
        | none => full
  let full :=
    match c.id with
    | some cid => if cid == "" then full else { full with id := some cid }
    | none => full
  match c.usage with
  | some u => { full with usage := u }
  | none => full

/-- One step of the upstream iterator: a chunk, or one of the exception
groups the generator catches (lines 88, 95, 104). -/
inductive StreamItem where
  | chunk (c : Chunk)
  | raiseDisconnect
  | raiseProviderError (msg : String)
  | raiseUnexpected (msg : String)
deriving DecidableEq, Repr

/-- An observable action of the generator: an SSE data line, an error
event, the `[DONE]` marker, or the `db.log_request` accounting call. -/
inductive Event where
  | data (c : Chunk)
  | errorEvent (msg : String)
  | done
  | logRequest (full : FullResponse) (error : Option String)
deriving DecidableEq, Repr

/-- The try-block of `generate` (outbound.py lines 61-111): iterate the
upstream items, polling for disconnect before processing each chunk
(return silently once disconnected); a connection-type exception returns
silently; a provider or unexpected exception sets `stream_error` and emits
one error event when still connected.  Returns the events emitted, the
accumulated full response, `stream_error`, and the next poll number. -/
def streamLoop (disc : ℕ → Bool) :
    List StreamItem → ℕ → FullResponse →
    List Event × FullResponse × Option String × ℕ
  | [], p, full => ([], full, none, p)
  | item :: rest, p, full =>
      match item with
      | .chunk c =>
          if disc p then ([], full, none, p + 1)
          else
            let full' := accumulate full c
            let out := streamLoop disc rest (p + 1) full'
            (Event.data c :: out.1, out.2)
      | .raiseDisconnect => ([], full, none, p)
      | .raiseProviderError msg =>
          if disc p then ([], full, some msg, p + 1)
          else ([Event.errorEvent msg], full, some msg, p + 1)
      | .raiseUnexpected msg =>
          if disc p then ([], full, some msg, p + 1)
          else ([Event.errorEvent msg], full, some msg, p + 1)

/-- Embedding of `generate` (outbound.py lines 57-134): the try-block, then the finally
block — `[DONE]` only when still connected, and the accounting call
`db.log_request(...)` unconditionally (its own failure is caught and only
logged, so the attempt always happens). -/
def generate (disc : ℕ → Bool) (items : List StreamItem) (model : String) :
    List Event :=
  let out := streamLoop disc items 0 (initFull model)
  let full := out.2.1
  let stream_error := out.2.2.1
  let p := out.2.2.2
  out.1 ++ (if disc p then [] else [Event.done]) ++
    [Event.logRequest full stream_error]

/-! ## Helper lemmas on the attribute bag and the resolver steps -/

lemma find?_false {α : Type} (l : List α) :
    l.find? (fun _ => false) = none := by
  induction l with
  | nil => rfl
  | cons hd tl ih => simp [List.find?_cons, ih]

lemma getattr_setattr_self (ps : List (String × Value)) (k : String)
    (v : Value) : getattr (setattr ps k v) k = v := by
  simp [getattr, setattr, alistGet, List.find?_append, find?_false]

lemma getattr_setattr_other (ps : List (String × Value)) (k k' : String)
    (v : Value) (h : k' ≠ k) :
    getattr (setattr ps k v) k' = getattr ps k' := by
  have hk : (k == k') = false := by
    simp [beq_iff_eq]; exact fun e => h e.symm
  induction ps with
  | nil => simp [getattr, setattr, alistGet, hk]
  | cons hd tl ih =>
      by_cases h1 : hd.1 = k
      · have h2 : (hd.1 == k') = false := by
          simp [beq_iff_eq, h1]; exact fun e => h e.symm
        simp only [setattr, getattr, alistGet, List.filter_cons] at ih ⊢
        simp [h1, h2, hk, List.find?_cons] at ih ⊢
        exact ih
      · by_cases h2 : hd.1 = k'
        · simp [setattr, getattr, alistGet, List.filter_cons, h1, h2, h, hk,
            List.find?_cons]
        · simp only [setattr, getattr, alistGet, List.filter_cons] at ih ⊢
          simp [h1, h2, hk, List.find?_cons] at ih ⊢
          exact ih

lemma foldl_invariant {α β γ : Type} (f : α → β → α) (g : α → γ)
    (h : ∀ a b, g (f a b) = g a) (l : List β) (a : α) :
    g (l.foldl f a) = g a := by
  induction l generalizing a with
  | nil => rfl
  | cons hd tl ih => rw [List.foldl_cons, ih, h]

lemma set_model (cr : ChatFunctionCallArgs) (k : String) (v : Value) :
    (cr.set k v).model = cr.model := rfl

lemma copyClientParam_model (cr : ChatFunctionCallArgs) (kv : String × Value) :
    (copyClientParam cr kv).model = cr.model := by
  unfold copyClientParam; split <;> rfl

lemma applyModelDefault_model (cr : ChatFunctionCallArgs)
    (kv : String × Value) : (applyModelDefault cr kv).model = cr.model := by
  unfold applyModelDefault; split <;> [skip; rfl]; split <;> rfl

lemma applyApiKey_model (cr : ChatFunctionCallArgs) (pc : ProviderConfig)
    (env : List (String × String)) : (applyApiKey cr pc env).model = cr.model := by
  unfold applyApiKey
  dsimp only
  split <;> rfl

lemma applyProviderFields_model (cr : ChatFunctionCallArgs)
    (mc : ModelConfig) (pc : ProviderConfig) :
    (applyProviderFields cr mc pc).model = cr.model := by
  unfold applyProviderFields ChatFunctionCallArgs.set
  cases pc.timeout <;> cases pc.headers <;> cases pc.custom_llm_provider <;>
    dsimp only <;> (repeat' split) <;> rfl

lemma getattr_applyModelDefault_api_key (cr : ChatFunctionCallArgs)
    (kv : String × Value) :
    getattr (applyModelDefault cr kv).params "api_key" =
      getattr cr.params "api_key" := by
  unfold applyModelDefault ChatFunctionCallArgs.set
  by_cases h : (kv.1 != "model" && kv.1 != "api_key") = true
  · rw [if_pos h]
    by_cases h2 : (getattr cr.params kv.1).isNull = true
    · rw [if_pos h2]
      have hne : "api_key" ≠ kv.1 := by
        simp [bne_iff_ne] at h
        exact fun e => h.2 e.symm
      exact getattr_setattr_other _ _ _ _ hne
    · rw [if_neg h2]
  · rw [if_neg h]

lemma getattr_applyProviderFields (cr : ChatFunctionCallArgs)
    (mc : ModelConfig) (pc : ProviderConfig) (k : String)
    (h1 : k ≠ "max_tokens") (h2 : k ≠ "timeout") (h3 : k ≠ "base_url")
    (h4 : k ≠ "extra_headers") (h5 : k ≠ "custom_llm_provider") :
    getattr (applyProviderFields cr mc pc).params k = getattr cr.params k := by
  unfold applyProviderFields ChatFunctionCallArgs.set
  cases pc.timeout <;> cases pc.headers <;> cases pc.custom_llm_provider <;>
    dsimp only <;> (repeat' split) <;>
    simp [getattr_setattr_other, h1, h2, h3, h4, h5]

lemma to_dict_set_null_no_key (cr : ChatFunctionCallArgs) (k : String) :
    ((cr.set k Value.vnull).to_dict.all (fun kv => kv.1 != k)) = true := by
  unfold ChatFunctionCallArgs.set ChatFunctionCallArgs.to_dict setattr
  rw [List.filter_append, List.all_append, Bool.and_eq_true]
  constructor
  · rw [List.all_eq_true]
    intro x hx
    exact (List.mem_filter.mp (List.mem_filter.mp hx).1).2
  · simp [Value.isNull]

lemma to_dict_all_nonnull (cr : ChatFunctionCallArgs) :
    (cr.to_dict.all (fun kv => !kv.2.isNull)) = true := by
  unfold ChatFunctionCallArgs.to_dict
  rw [List.all_eq_true]
  intro x hx
  exact (List.mem_filter.mp hx).2

lemma create_completion_request_model (mc : ModelConfig)
    (pc : ProviderConfig) (rd : RequestData) (env : List (String × String)) :
    (create_completion_request mc pc rd env).model = mc.litellm_model := by
  unfold create_completion_request
  rw [applyProviderFields_model,
    foldl_invariant applyModelDefault (fun cr => cr.model) applyModelDefault_model,
    applyApiKey_model,
    foldl_invariant copyClientParam (fun cr => cr.model) copyClientParam_model]

lemma create_completion_request_api_key (mc : ModelConfig)
    (pc : ProviderConfig) (rd : RequestData) (env : List (String × String))
    (h : resolve_api_key pc.api_key env ≠ "") :
    getattr (create_completion_request mc pc rd env).params "api_key" =
      Value.vstr (resolve_api_key pc.api_key env) := by
  unfold create_completion_request
  rw [getattr_applyProviderFields _ _ _ _ (by decide) (by decide) (by decide)
    (by decide) (by decide)]
  rw [foldl_invariant applyModelDefault
    (fun cr => getattr cr.params "api_key") getattr_applyModelDefault_api_key]
  unfold applyApiKey ChatFunctionCallArgs.set
  dsimp only
  rw [if_pos (by simpa [bne_iff_ne] using h)]
  exact getattr_setattr_self _ _ _

lemma streamLoop_all_chunks (k : ℕ) (chunks : List Chunk) (p : ℕ)
    (full : FullResponse) (hp : p ≤ k) :
    streamLoop (fun q => decide (k ≤ q)) (chunks.map StreamItem.chunk) p full =
      ((chunks.take (k - p)).map Event.data,
       (chunks.take (k - p)).foldl accumulate full,
       none,
       if chunks.length + p ≤ k then chunks.length + p else k + 1) := by
  induction chunks generalizing p full with
  | nil =>
      simp only [List.map_nil, streamLoop, List.take_nil, List.foldl_nil,
        List.length_nil, Nat.zero_add]
      rw [if_pos hp]
  | cons c rest ih =>
      by_cases hk : k ≤ p
      · have hpk : p = k := Nat.le_antisymm hp hk
        have hz : k - p = 0 := by omega
        have hcond : ¬ ((c :: rest).length + p ≤ k) := by
          simp [List.length_cons]; omega
        simp only [List.map_cons, streamLoop, decide_eq_true_eq]
        rw [if_pos hk, hz, if_neg hcond]
        simp [hpk]
      · have hlt : p < k := Nat.lt_of_le_of_ne hp (fun e => hk (Nat.le_of_eq e.symm))
        have hsub : k - p = (k - (p + 1)) + 1 := by omega
        simp only [List.map_cons, streamLoop, decide_eq_true_eq]
        rw [if_neg hk, ih (p + 1) (accumulate full c) (by omega), hsub,
          List.take_succ_cons]
        have hcount : rest.length + (p + 1) = (c :: rest).length + p := by
          simp [List.length_cons]; omega
        simp [hcount]

/-! ## Claim theorems -/

/-- C4: for every call to calculate_cost with a pricing override supplied,
the result equals prompt_tokens * override.cost_per_1m_in / 1e6 +
completion_tokens * override.cost_per_1m_out / 1e6, and the pricing index
is never consulted: the result is the same for every index, including one
with a matching entry. -/
theorem calculate_cost_override_bypasses_index
    (index index' : PricingIndex) (catwalk_name costing_model : Option String)
    (prompt_tokens completion_tokens : ℤ) (ov : List (String × ℚ)) (ci co : ℚ)
    (hin : alistGet ov "cost_per_1m_in" = some ci)
    (hout : alistGet ov "cost_per_1m_out" = some co) :
    calculate_cost index catwalk_name costing_model prompt_tokens
        completion_tokens (some ov) =
      prompt_tokens * ci / 1000000 + completion_tokens * co / 1000000 ∧
    calculate_cost index catwalk_name costing_model prompt_tokens
        completion_tokens (some ov) =
      calculate_cost index' catwalk_name costing_model prompt_tokens
        completion_tokens (some ov) := by
  constructor
  · simp [calculate_cost, hin, hout]
  · rfl

/-- Witness for C4: override in=1.0, out=2.0 with 1000 prompt and 500
completion tokens yields exactly 0.0020, on an index that does contain a
matching (openai, gpt-4) entry; the empty index gives the same answer. -/
theorem calculate_cost_override_bypasses_index_witness :
    calculate_cost [("openai", [("gpt-4", ⟨50, 100⟩)])] (some "openai")
        (some "gpt-4") 1000 500
        (some [("cost_per_1m_in", 1), ("cost_per_1m_out", 2)]) = 0.002 ∧
    calculate_cost [("openai", [("gpt-4", ⟨50, 100⟩)])] (some "openai")
        (some "gpt-4") 1000 500
        (some [("cost_per_1m_in", 1), ("cost_per_1m_out", 2)]) =
      calculate_cost [] (some "openai") (some "gpt-4") 1000 500
        (some [("cost_per_1m_in", 1), ("cost_per_1m_out", 2)]) := by
  have h := calculate_cost_override_bypasses_index
    [("openai", [("gpt-4", ⟨50, 100⟩)])] [] (some "openai") (some "gpt-4")
    1000 500 [("cost_per_1m_in", 1), ("cost_per_1m_out", 2)] 1 2
    (by decide) (by decide)
  exact ⟨h.1.trans (by norm_num), h.2⟩

/-- C5: for every call to calculate_cost without an override where the
pricing key is missing (or empty), the costing key is missing (or empty),
the pricing key is not in the index, or the costing key is not under that
pricing key, the result is exactly 0.0; the embedded function is total, so
no exception can be raised. -/
theorem calculate_cost_lookup_miss_zero
    (index : PricingIndex) (catwalk_name costing_model : Option String)
    (prompt_tokens completion_tokens : ℤ)
    (h : falsyStr catwalk_name = true ∨ falsyStr costing_model = true ∨
      (alistGet index (catwalk_name.getD "")).bind
        (fun pm => alistGet pm (costing_model.getD "")) = none) :
    calculate_cost index catwalk_name costing_model prompt_tokens
      completion_tokens none = 0 := by
  unfold calculate_cost
  by_cases h1 : falsyStr catwalk_name = true
  · simp [h1]
  · by_cases h2 : falsyStr costing_model = true
    · simp [h1, h2]
    · rcases h with h | h | h
      · exact absurd h h1
      · exact absurd h h2
      · cases hidx : alistGet index (catwalk_name.getD "") with
        | none => simp [h1, h2, hidx]
        | some pm =>
            rw [hidx] at h
            simp only [Option.some_bind] at h
            simp [h1, h2, hidx, h]

/-- Witness for C5: a pricing key absent from the index answers 0. -/
theorem calculate_cost_lookup_miss_zero_witness :
    ((alistGet ([("openai", [("gpt-4", (⟨50, 100⟩ : ModelPricing))])] :
        PricingIndex) ((some "mistral").getD "")).bind
      (fun pm => alistGet pm ((some "gpt-4").getD "")) = none) ∧
    calculate_cost [("openai", [("gpt-4", ⟨50, 100⟩)])] (some "mistral")
      (some "gpt-4") 1000 500 none = 0 :=
  ⟨by decide,
   calculate_cost_lookup_miss_zero _ _ _ _ _ (Or.inr (Or.inr (by decide)))⟩

/-- C6: a failed rebuild attempt (HTTP failure or parse failure while
building the local new index) leaves the shared index exactly as before
the attempt, so every calculate_cost lookup answers identically; and the
resulting index is always either the pre-swap index or a fully-built new
one, never a partial mix. -/
theorem pricing_rebuild_atomic (state : PricingIndex) (fetched : FetchResult)
    (h : fetched = FetchResult.httpError ∨
      ∃ ps, fetched = FetchResult.ok ps ∧ buildIndex ps = .error ()) :
    fetch_and_build_index state fetched = state ∧
    (∀ cn cm pt ct ov,
      calculate_cost (fetch_and_build_index state fetched) cn cm pt ct ov =
        calculate_cost state cn cm pt ct ov) ∧
    (∀ f, fetch_and_build_index state f = state ∨
      ∃ ps, f = FetchResult.ok ps ∧
        buildIndex ps = .ok (fetch_and_build_index state f)) := by
  have h1 : fetch_and_build_index state fetched = state := by
    rcases h with h | ⟨ps, hps, hb⟩
    · rw [h]; rfl
    · rw [hps]; simp [fetch_and_build_index, hb]
  refine ⟨h1, fun cn cm pt ct ov => by rw [h1], fun f => ?_⟩
  cases f with
  | httpError => exact Or.inl rfl
  | ok ps =>
      cases hb : buildIndex ps with
      | error e => exact Or.inl (by simp [fetch_and_build_index, hb])
      | ok ni =>
          exact Or.inr ⟨ps, rfl, by simp [fetch_and_build_index, hb]⟩

/-- Witness for C6: a payload whose cost field fails float conversion
leaves a one-entry index untouched and lookups unchanged. -/
theorem pricing_rebuild_atomic_witness :
    fetch_and_build_index [("p", [("m", ⟨1, 2⟩)])]
        (FetchResult.ok [⟨some "prov", [⟨some "mod", some .invalid,
          some (.num 3)⟩]⟩]) = [("p", [("m", ⟨1, 2⟩)])] ∧
    calculate_cost (fetch_and_build_index [("p", [("m", ⟨1, 2⟩)])]
        (FetchResult.ok [⟨some "prov", [⟨some "mod", some .invalid,
          some (.num 3)⟩]⟩])) (some "p") (some "m") 10 20 none =
      calculate_cost [("p", [("m", ⟨1, 2⟩)])] (some "p") (some "m")
        10 20 none := by
  have h := pricing_rebuild_atomic [("p", [("m", ⟨1, 2⟩)])]
    (FetchResult.ok [⟨some "prov", [⟨some "mod", some .invalid,
      some (.num 3)⟩]⟩])
    (Or.inr ⟨[⟨some "prov", [⟨some "mod", some .invalid, some (.num 3)⟩]⟩],
      rfl, rfl⟩)
  exact ⟨h.1, h.2.1 (some "p") (some "m") 10 20 none⟩

/-- Counterexample for C2: reload is not failure-atomic in either map.
With one loaded provider and one loaded model, a JSON decode failure
empties the model map (the previous state is not retained), and a failure
raised while parsing the model list — after `parse_providers` already
assigned the freshly parsed provider map — leaves a provider map different
from the previous one. -/
theorem config_reload_drops_models_counterexample :
    Config.reload
        { providers := [("p1", ⟨"p1", "sk-123", some 120, some 3,
            "https://api.example.com", none, none, none⟩)]
          models := [("m1", ⟨"m1", "openai/gpt-4", "p1", none, none, none,
            none, []⟩)] }
        LoadResult.jsonDecodeError ≠
      { providers := [("p1", ⟨"p1", "sk-123", some 120, some 3,
          "https://api.example.com", none, none, none⟩)]
        models := [("m1", ⟨"m1", "openai/gpt-4", "p1", none, none, none,
          none, []⟩)] } ∧
    (Config.reload
        { providers := [("p1", ⟨"p1", "sk-123", some 120, some 3,
            "https://api.example.com", none, none, none⟩)]
          models := [("m1", ⟨"m1", "openai/gpt-4", "p1", none, none, none,
            none, []⟩)] }
        LoadResult.jsonDecodeError).models = [] ∧
    (Config.reload
        { providers := [("p1", ⟨"p1", "sk-123", some 120, some 3,
            "https://api.example.com", none, none, none⟩)]
          models := [("m1", ⟨"m1", "openai/gpt-4", "p1", none, none, none,
            none, []⟩)] }
        (LoadResult.modelListError [⟨some "p2", some "sk-456", none, none,
          some "https://api2.example.com", none, none, none⟩])).providers ≠
      [("p1", ⟨"p1", "sk-123", some 120, some 3,
        "https://api.example.com", none, none, none⟩)] := by
  decide

/-- C2 (amended): a failing reload always resets the model map to empty
(the previous model map is never retained when it was nonempty); the
provider map is retained unchanged exactly on the failures that occur
before provider parsing completes (unreadable template, invalid JSON,
other render errors, a malformed provider list), while a failure raised
while parsing the model list leaves the freshly parsed provider map in
place — so no failure path leaves both maps as they were, and reload is
atomic across both maps in no failure case.  On a successful parse both
maps are replaced wholesale, independently of the previous state. -/
theorem config_reload_partial_atomicity (state state' : ConfigState)
    (load : LoadResult) (h : ∀ cfg, load ≠ LoadResult.ok cfg) :
    (Config.reload state load).models = [] ∧
    ((∀ pl, load ≠ LoadResult.modelListError pl) →
      (Config.reload state load).providers = state.providers) ∧
    (∀ pl, load = LoadResult.modelListError pl →
      (Config.reload state load).providers = parse_providers ⟨pl, []⟩) ∧
    (∀ cfg, Config.reload state (LoadResult.ok cfg) =
      Config.reload state' (LoadResult.ok cfg)) := by
  cases load with
  | ok cfg => exact absurd rfl (h cfg)
  | fileNotFound =>
      exact ⟨rfl, fun _ => rfl, fun pl hpl => LoadResult.noConfusion hpl,
        fun _ => rfl⟩
  | jsonDecodeError =>
      exact ⟨rfl, fun _ => rfl, fun pl hpl => LoadResult.noConfusion hpl,
        fun _ => rfl⟩
  | renderError =>
      exact ⟨rfl, fun _ => rfl, fun pl hpl => LoadResult.noConfusion hpl,
        fun _ => rfl⟩
  | providerListError =>
      exact ⟨rfl, fun _ => rfl, fun pl hpl => LoadResult.noConfusion hpl,
        fun _ => rfl⟩
  | modelListError pl =>
      refine ⟨rfl, fun hne => absurd rfl (hne pl), ?_, fun _ => rfl⟩
      intro pl' hpl'
      injection hpl' with e
      subst e
      rfl

/-- Witness for C2 (amended), at a loaded one-provider one-model state and
a failure raised while parsing the model list: the model map is emptied
and the provider map is the fresh provider parse. -/
theorem config_reload_partial_atomicity_witness :
    (Config.reload
        { providers := [("p1", ⟨"p1", "sk-123", some 120, some 3,
            "https://api.example.com", none, none, none⟩)]
          models := [("m1", ⟨"m1", "openai/gpt-4", "p1", none, none, none,
            none, []⟩)] }
        (LoadResult.modelListError [⟨some "p2", some "sk-456", none, none,
          some "https://api2.example.com", none, none, none⟩])).models =
      [] ∧
    (Config.reload
        { providers := [("p1", ⟨"p1", "sk-123", some 120, some 3,
            "https://api.example.com", none, none, none⟩)]
          models := [("m1", ⟨"m1", "openai/gpt-4", "p1", none, none, none,
            none, []⟩)] }
        (LoadResult.modelListError [⟨some "p2", some "sk-456", none, none,
          some "https://api2.example.com", none, none, none⟩])).providers =
      parse_providers ⟨[⟨some "p2", some "sk-456", none, none,
        some "https://api2.example.com", none, none, none⟩], []⟩ ∧
    Config.reload
        { providers := [("p1", ⟨"p1", "sk-123", some 120, some 3,
            "https://api.example.com", none, none, none⟩)]
          models := [("m1", ⟨"m1", "openai/gpt-4", "p1", none, none, none,
            none, []⟩)] }
        (LoadResult.ok ⟨[], []⟩) =
      Config.reload ⟨[], []⟩ (LoadResult.ok ⟨[], []⟩) := by
  have h := config_reload_partial_atomicity
    { providers := [("p1", ⟨"p1", "sk-123", some 120, some 3,
        "https://api.example.com", none, none, none⟩)]
      models := [("m1", ⟨"m1", "openai/gpt-4", "p1", none, none, none,
        none, []⟩)] }
    ⟨[], []⟩
    (LoadResult.modelListError [⟨some "p2", some "sk-456", none, none,
      some "https://api2.example.com", none, none, none⟩])
    (fun cfg hc => LoadResult.noConfusion hc)
  exact ⟨h.1, h.2.2.1 _ rfl, h.2.2.2 ⟨[], []⟩⟩

/-- C1: evaluation of the resolver at the failing input.  A client that
sends timeout=5 and max_tokens=4096 to a model whose provider configures
timeout=120 and whose model entry has context_window=8192 gets timeout=120
(model_resolution.py line 99 assigns the provider timeout whenever truthy,
despite the comment at line 97 saying `if not specified`) and
max_tokens=8192 (line 95 assigns the context window unconditionally) —
the non-null client values do not win, contradicting the three-tier
precedence for those parameters; the client temperature is kept, showing
the precedence does hold for parameters merged through the litellm_params
loop. -/
theorem create_completion_request_provider_overrides_client :
    getattr (create_completion_request
      ⟨"gpt-fast", "openai/gpt-4", "p1", none, none, none, some 8192, []⟩
      ⟨"p1", "sk-123", some 120, some 3, "https://api.example.com",
        none, none, none⟩
      ⟨[], [("timeout", Value.vnum 5), ("max_tokens", Value.vnum 4096),
        ("temperature", Value.vnum 7)]⟩
      []).params "timeout" = Value.vnum 120 ∧
    getattr (create_completion_request
      ⟨"gpt-fast", "openai/gpt-4", "p1", none, none, none, some 8192, []⟩
      ⟨"p1", "sk-123", some 120, some 3, "https://api.example.com",
        none, none, none⟩
      ⟨[], [("timeout", Value.vnum 5), ("max_tokens", Value.vnum 4096),
        ("temperature", Value.vnum 7)]⟩
      []).params "max_tokens" = Value.vnum 8192 ∧
    getattr (create_completion_request
      ⟨"gpt-fast", "openai/gpt-4", "p1", none, none, none, some 8192, []⟩
      ⟨"p1", "sk-123", some 120, some 3, "https://api.example.com",
        none, none, none⟩
      ⟨[], [("timeout", Value.vnum 5), ("max_tokens", Value.vnum 4096),
        ("temperature", Value.vnum 7)]⟩
      []).params "temperature" = Value.vnum 7 := by
  decide

/-- C3: for a streaming dispatch over an upstream chunk sequence where the
caller disconnects after chunk k of n (k < n, modelled by the disconnect
poll answering true from the k-th poll on; disconnection is polled before
each chunk is processed), the emitted trace is exactly the first k chunks
forwarded in order, followed by exactly one accounting log call with no
stream error — no error event, no termination marker, and the log comes
after the last processed chunk. -/
theorem streaming_disconnect_exactly_one_log (chunks : List Chunk)
    (model : String) (k : ℕ) (h : k < chunks.length) :
    generate (fun q => decide (k ≤ q)) (chunks.map StreamItem.chunk) model =
      (chunks.take k).map Event.data ++
        [Event.logRequest ((chunks.take k).foldl accumulate (initFull model))
          none] := by
  unfold generate
  rw [streamLoop_all_chunks k chunks 0 (initFull model) (Nat.zero_le k)]
  have hnle : ¬ (chunks.length + 0 ≤ k) := by omega
  rw [if_neg hnle]
  have hdisc : (decide (k ≤ k + 1)) = true := by simp
  simp [hdisc]

/-- Witness for C3: a caller that disconnects after chunk 2 of 5 gets
exactly 2 chunks and one usage record. -/
theorem streaming_disconnect_exactly_one_log_witness :
    2 < (List.replicate 5 (⟨[], none, none⟩ : Chunk)).length ∧
    generate (fun q => decide (2 ≤ q))
        ((List.replicate 5 (⟨[], none, none⟩ : Chunk)).map StreamItem.chunk)
        "m" =
      ((List.replicate 5 (⟨[], none, none⟩ : Chunk)).take 2).map Event.data ++
        [Event.logRequest
          (((List.replicate 5 (⟨[], none, none⟩ : Chunk)).take 2).foldl
            accumulate (initFull "m")) none] :=
  ⟨by decide,
   streaming_disconnect_exactly_one_log
     (List.replicate 5 (⟨[], none, none⟩ : Chunk)) "m" 2 (by decide)⟩

/-- C7: for every request resolved for a strict-model alias whose merged
descriptor carries both a non-null temperature and a non-null top_p
(whatever their origin), the descriptor after the quirk filtering — which
runs on the output of the three-tier merge — has a null top_p attribute
and no top_p key in the dispatched dict, while temperature is unchanged. -/
theorem strict_model_top_p_dropped_temperature_kept
    (mc : ModelConfig) (pc : ProviderConfig) (rd : RequestData)
    (env : List (String × String)) (t p' : Value)
    (hstrict : is_strict_model mc.litellm_model = true)
    (htemp : getattr (create_completion_request mc pc rd env).params
      "temperature" = t)
    (ht : t.isNull = false)
    (htop : getattr (create_completion_request mc pc rd env).params
      "top_p" = p')
    (hp : p'.isNull = false) :
    getattr (filter_parameters_for_model
      (create_completion_request mc pc rd env)).params "top_p" =
        Value.vnull ∧
    getattr (filter_parameters_for_model
      (create_completion_request mc pc rd env)).params "temperature" = t ∧
    ((filter_parameters_for_model
      (create_completion_request mc pc rd env)).to_dict.all
        (fun kv => kv.1 != "top_p")) = true := by
  have hcond : is_strict_model
      (create_completion_request mc pc rd env).model = true := by
    rw [create_completion_request_model]; exact hstrict
  unfold filter_parameters_for_model
  rw [if_pos hcond]
  refine ⟨getattr_setattr_self _ _ _, ?_, to_dict_set_null_no_key _ _⟩
  rw [show ({ create_completion_request mc pc rd env with
      params := setattr (create_completion_request mc pc rd env).params
        "top_p" Value.vnull } : ChatFunctionCallArgs).params =
    setattr (create_completion_request mc pc rd env).params "top_p"
      Value.vnull from rfl]
  rw [getattr_setattr_other _ _ _ _ (by decide)]
  exact htemp

/-- Witness for C7: temperature 2 from the model config, top_p 9 from the
client, on a strict sonnet model — after filtering, top_p is gone and
temperature survives. -/
theorem strict_model_top_p_dropped_temperature_kept_witness :
    is_strict_model "anthropic/claude-sonnet-4-5-20250929" = true ∧
    getattr (create_completion_request
      ⟨"sonnet", "anthropic/claude-sonnet-4-5-20250929", "p1", none, none,
        none, none, [("temperature", Value.vnum 2)]⟩
      ⟨"p1", "sk-123", some 120, some 3, "https://api.example.com",
        none, none, none⟩
      ⟨[], [("top_p", Value.vnum 9)]⟩ []).params "temperature" =
      Value.vnum 2 ∧
    getattr (create_completion_request
      ⟨"sonnet", "anthropic/claude-sonnet-4-5-20250929", "p1", none, none,
        none, none, [("temperature", Value.vnum 2)]⟩
      ⟨"p1", "sk-123", some 120, some 3, "https://api.example.com",
        none, none, none⟩
      ⟨[], [("top_p", Value.vnum 9)]⟩ []).params "top_p" = Value.vnum 9 ∧
    (getattr (filter_parameters_for_model (create_completion_request
      ⟨"sonnet", "anthropic/claude-sonnet-4-5-20250929", "p1", none, none,
        none, none, [("temperature", Value.vnum 2)]⟩
      ⟨"p1", "sk-123", some 120, some 3, "https://api.example.com",
        none, none, none⟩
      ⟨[], [("top_p", Value.vnum 9)]⟩ [])).params "top_p" = Value.vnull ∧
    getattr (filter_parameters_for_model (create_completion_request
      ⟨"sonnet", "anthropic/claude-sonnet-4-5-20250929", "p1", none, none,
        none, none, [("temperature", Value.vnum 2)]⟩
      ⟨"p1", "sk-123", some 120, some 3, "https://api.example.com",
        none, none, none⟩
      ⟨[], [("top_p", Value.vnum 9)]⟩ [])).params "temperature" =
      Value.vnum 2 ∧
    ((filter_parameters_for_model (create_completion_request
      ⟨"sonnet", "anthropic/claude-sonnet-4-5-20250929", "p1", none, none,
        none, none, [("temperature", Value.vnum 2)]⟩
      ⟨"p1", "sk-123", some 120, some 3, "https://api.example.com",
        none, none, none⟩
      ⟨[], [("top_p", Value.vnum 9)]⟩ [])).to_dict.all
        (fun kv => kv.1 != "top_p")) = true) :=
  ⟨by decide, by decide, by decide,
   strict_model_top_p_dropped_temperature_kept _ _ _ _
     (Value.vnum 2) (Value.vnum 9)
     (by decide) (by decide) (by decide) (by decide) (by decide)⟩

/-- C8: for every resolved call, the payload handed to the upstream
executor — the to_dict of the filtered, merged descriptor, exactly what
incoming.py line 85 dispatches — contains no null-valued parameters. -/
theorem resolver_output_no_null_params (mc : ModelConfig)
    (pc : ProviderConfig) (rd : RequestData) (env : List (String × String)) :
    ((filter_parameters_for_model
      (create_completion_request mc pc rd env)).to_dict.all
        (fun kv => !kv.2.isNull)) = true :=
  to_dict_all_nonnull _

/-- Counterexample for C9: a provider whose configured credential is the
marker `os.environ/MISSING_KEY` with no such environment variable resolves
to the empty string, which is not assigned; the resolved descriptor
carries a null credential attribute and no api_key in the dispatched dict,
so the credential is not non-empty after resolution. -/
theorem credential_missing_env_counterexample :
    getattr (create_completion_request
      ⟨"gpt-fast", "openai/gpt-4", "p1", none, none, none, none, []⟩
      ⟨"p1", "os.environ/MISSING_KEY", some 120, some 3,
        "https://api.example.com", none, none, none⟩
      ⟨[], []⟩ []).params "api_key" = Value.vnull ∧
    ((create_completion_request
      ⟨"gpt-fast", "openai/gpt-4", "p1", none, none, none, none, []⟩
      ⟨"p1", "os.environ/MISSING_KEY", some 120, some 3,
        "https://api.example.com", none, none, none⟩
      ⟨[], []⟩ []).to_dict.all (fun kv => kv.1 != "api_key")) = true := by
  decide

/-- C9 (amended): resolution substitutes the named environment variable
when the configured credential matches the marker syntax and uses it
literally otherwise; whenever the resolved credential is non-empty, the
descriptor carries exactly that value (a carried credential from the
provider config is therefore never empty — but when the resolution yields
the empty string, no credential is assigned at all). -/
theorem credential_resolution_amended (mc : ModelConfig)
    (pc : ProviderConfig) (rd : RequestData) (env : List (String × String))
    (h : resolve_api_key pc.api_key env ≠ "") :
    getattr (create_completion_request mc pc rd env).params "api_key" =
      Value.vstr (resolve_api_key pc.api_key env) ∧
    (strStartsWith pc.api_key "os.environ/" = true →
      resolve_api_key pc.api_key env =
        envGet env ⟨pc.api_key.data.drop "os.environ/".data.length⟩) ∧
    (strStartsWith pc.api_key "os.environ/" = false →
      resolve_api_key pc.api_key env = pc.api_key) := by
  refine ⟨create_completion_request_api_key mc pc rd env h, ?_, ?_⟩
  · intro hs; unfold resolve_api_key; rw [if_pos hs]
  · intro hs; unfold resolve_api_key; rw [if_neg (by simp [hs])]

/-- Witness for C9 (amended): the marker `os.environ/KEY` with KEY bound
to sk-xyz resolves to sk-xyz and the descriptor carries it. -/
theorem credential_resolution_amended_witness :
    resolve_api_key "os.environ/KEY" [("KEY", "sk-xyz")] ≠ "" ∧
    getattr (create_completion_request
      ⟨"gpt-fast", "openai/gpt-4", "p1", none, none, none, none, []⟩
      ⟨"p1", "os.environ/KEY", some 120, some 3,
        "https://api.example.com", none, none, none⟩
      ⟨[], []⟩ [("KEY", "sk-xyz")]).params "api_key" =
      Value.vstr (resolve_api_key "os.environ/KEY" [("KEY", "sk-xyz")]) :=
  ⟨by decide,
   (credential_resolution_amended
     ⟨"gpt-fast", "openai/gpt-4", "p1", none, none, none, none, []⟩
     ⟨"p1", "os.environ/KEY", some 120, some 3,
       "https://api.example.com", none, none, none⟩
     ⟨[], []⟩ [("KEY", "sk-xyz")] (by decide)).1⟩

/-- C10: for every descriptor whose upstream model identifier contains a
strict-model name, the filter nulls top_p unconditionally — no
temperature hypothesis — so a top_p attribute is null after filtering and
absent from the dispatched dict. -/
theorem strict_model_top_p_nulled_unconditionally
    (cr : ChatFunctionCallArgs) (h : is_strict_model cr.model = true) :
    getattr (filter_parameters_for_model cr).params "top_p" = Value.vnull ∧
    ((filter_parameters_for_model cr).to_dict.all
      (fun kv => kv.1 != "top_p")) = true := by
  unfold filter_parameters_for_model
  rw [if_pos h]
  exact ⟨getattr_setattr_self _ _ _, to_dict_set_null_no_key _ _⟩

/-- Witness for C10: a client-supplied top_p sent alone (temperature
absent) to an opus model is dropped from the dispatched payload. -/
theorem strict_model_top_p_nulled_unconditionally_witness :
    is_strict_model (create_completion_request
      ⟨"opus", "anthropic/claude-opus-4-1", "p1", none, none, none,
        none, []⟩
      ⟨"p1", "sk-123", some 120, some 3, "https://api.example.com",
        none, none, none⟩
      ⟨[], [("top_p", Value.vnum 9)]⟩ []).model = true ∧
    getattr (create_completion_request
      ⟨"opus", "anthropic/claude-opus-4-1", "p1", none, none, none,
        none, []⟩
      ⟨"p1", "sk-123", some 120, some 3, "https://api.example.com",
        none, none, none⟩
      ⟨[], [("top_p", Value.vnum 9)]⟩ []).params "temperature" =
      Value.vnull ∧
    getattr (create_completion_request
      ⟨"opus", "anthropic/claude-opus-4-1", "p1", none, none, none,
        none, []⟩
      ⟨"p1", "sk-123", some 120, some 3, "https://api.example.com",
        none, none, none⟩
      ⟨[], [("top_p", Value.vnum 9)]⟩ []).params "top_p" = Value.vnum 9 ∧
    (getattr (filter_parameters_for_model (create_completion_request
      ⟨"opus", "anthropic/claude-opus-4-1", "p1", none, none, none,
        none, []⟩
      ⟨"p1", "sk-123", some 120, some 3, "https://api.example.com",
        none, none, none⟩
      ⟨[], [("top_p", Value.vnum 9)]⟩ [])).params "top_p" = Value.vnull ∧
    ((filter_parameters_for_model (create_completion_request
      ⟨"opus", "anthropic/claude-opus-4-1", "p1", none, none, none,
        none, []⟩
      ⟨"p1", "sk-123", some 120, some 3, "https://api.example.com",
        none, none, none⟩
      ⟨[], [("top_p", Value.vnum 9)]⟩ [])).to_dict.all
        (fun kv => kv.1 != "top_p")) = true) :=
  ⟨by decide, by decide, by decide,
   strict_model_top_p_nulled_unconditionally _ (by decide)⟩

end Apantli
